import Mathlib

/-!
Formal model of the retrieval-augmented-generation pipeline of this
repository: the embedding providers (gemini_embedding.py, ollama_embedding.py),
the generation-backend health checks (local_llm.py, cloud_llm.py), the vector
store (vector_store.py) and the orchestration layer (rag_system.py).

Numeric vector components and distances are modelled over ℚ; the properties
under study depend only on vector lengths and on the ordering of distances,
never on the numeric representation.  Fallible Python functions that return
None on failure are modelled as Option-valued functions.  The behaviour of
the external collaborators (the embedding and generation HTTP backends and
the PostgreSQL + pgvector store) is made explicit as inputs: each model
function takes the collaborator's response as an argument.
-/

namespace RagPortfolio

/-- Python truthiness of an optional string: None and the empty string are
both falsy, as in the check `if answer:` of rag_system.py. -/
def pyTruthyStr : Option String → Bool
  | none => false
  | some s => !s.isEmpty

/-- Python `a or b` on two optional strings, as used by local_llm.py in
`m.get("name") or m.get("model")`: the first operand wins unless it is falsy
(None or the empty string). -/
def pyOrStr : Option String → Option String → Option String
  | none, b => b
  | some s, b => if s.isEmpty then b else some s

/-- Whether `hay` starts with `needle`, on character lists. -/
def startsWithSeq : List Char → List Char → Bool
  | [], _ => true
  | _ :: _, [] => false
  | a :: as, b :: bs => a == b && startsWithSeq as bs

/-- Whether `needle` occurs contiguously inside `hay`, on character lists. -/
def containsSeq (needle : List Char) : List Char → Bool
  | [] => needle.isEmpty
  | c :: t => startsWithSeq needle (c :: t) || containsSeq needle t

/-- The Python substring test `needle in hay` on strings. -/
def pyInStr (needle hay : String) : Bool :=
  containsSeq needle.toList hay.toList

/-- Outcome of one call to an external HTTP/API backend: either a payload or
a raised exception (network, authentication, malformed response, ...). -/
inductive ApiResult (α : Type) where
  | ok (value : α)
  | error
  deriving DecidableEq

/-- Model of `GeminiEmbedding.get_embedding` (gemini_embedding.py, lines
23-50).  The source reads the response vector and checks
`len(embedding) != 768`, but the `return None` that follows the check is
indented at function level, so it runs unconditionally; the
`return embedding` below it is unreachable.  Every non-raising call therefore
returns None, and a raising call returns None through the except handler. -/
def geminiGetEmbedding (response : ApiResult (List ℚ)) : Option (List ℚ) :=
  match response with
  | .ok _embedding => none
  | .error => none

/-- Model of `GeminiEmbedding.get_query_embedding` (gemini_embedding.py,
lines 53-75): returns the response vector unchanged, with no dimensionality
check of any kind. -/
def geminiGetQueryEmbedding (response : ApiResult (List ℚ)) : Option (List ℚ) :=
  match response with
  | .ok embedding => some embedding
  | .error => none

/-- Model of `OllamaEmbedding.get_embedding` (ollama_embedding.py, lines
23-61).  The JSON payload may lack the `embedding` field (modelled as an
inner `none`); a falsy field value (None or the empty list) is rejected
first, then the 1024-dimensionality check applies. -/
def ollamaGetEmbedding (response : ApiResult (Option (List ℚ))) : Option (List ℚ) :=
  match response with
  | .error => none
  | .ok none => none
  | .ok (some embedding) =>
      if embedding.isEmpty then none
      else if embedding.length ≠ 1024 then none
      else some embedding

/-- Model of `OllamaEmbedding.get_query_embedding` (ollama_embedding.py,
lines 64-75): delegates to `get_embedding`. -/
def ollamaGetQueryEmbedding (response : ApiResult (Option (List ℚ))) : Option (List ℚ) :=
  ollamaGetEmbedding response

/-- One entry of the Ollama `list()` response, as discriminated by
`LocalLLM.test_connection` (local_llm.py, lines 99-109): an object carrying
a `name` attribute, an object carrying only a `model` attribute, a dict with
optional `name`/`model` keys, or anything else. -/
inductive PyModelEntry where
  | nameAttr (name : String)
  | modelAttr (model : String)
  | dictEntry (name : Option String) (model : Option String)
  | unknownEntry
  deriving DecidableEq

/-- The model names `LocalLLM.test_connection` extracts from one response
entry: zero or one name; a dict entry with a falsy `name` falls back to
`model`, and a falsy final value is skipped (`if n:`). -/
def entryNames : PyModelEntry → List String
  | .nameAttr n => [n]
  | .modelAttr n => [n]
  | .dictEntry nm md =>
      match pyOrStr nm md with
      | some s => if s.isEmpty then [] else [s]
      | none => []
  | .unknownEntry => []

/-- Shape of the Ollama `client.list()` payload, covering the three response
patterns probed by `LocalLLM.test_connection` (local_llm.py, lines 83-93):
an object with a `models` attribute, a plain list, a dict with or without a
`models` key, or any other shape (which yields an empty model list). -/
inductive OllamaListResp where
  | attrModels (ms : List PyModelEntry)
  | rawList (ms : List PyModelEntry)
  | dictModels (ms : List PyModelEntry)
  | dictNoModels
  | otherShape
  deriving DecidableEq

/-- The `raw_models` value computed by `LocalLLM.test_connection`. -/
def rawModels : OllamaListResp → List PyModelEntry
  | .attrModels ms => ms
  | .rawList ms => ms
  | .dictModels ms => ms
  | .dictNoModels => []
  | .otherShape => []

/-- The `model_names` list computed by `LocalLLM.test_connection`. -/
def ollamaModelNames (r : OllamaListResp) : List String :=
  (rawModels r).flatMap entryNames

/-- Model of `LocalLLM.test_connection` (local_llm.py, lines 69-124).  A
`none` response models a raised exception from `client.list()`.  The final
check is `if self.model in model_names`, i.e. exact list membership of the
configured model identifier among the served names. -/
def localTestConnection (response : Option OllamaListResp) (model : String) : Bool :=
  match response with
  | none => false
  | some r => (ollamaModelNames r).contains model

/-- Model of `CloudLLM.test_connection` (cloud_llm.py, lines 69-96).  A
`none` response models a raised exception from `genai.list_models()`.  The
check is `any(self.model in m for m in model_list)`: substring matching of
the configured identifier against each served name. -/
def cloudTestConnection (response : Option (List String)) (model : String) : Bool :=
  match response with
  | none => false
  | some names => names.any fun n => pyInStr model n

/-- A persisted row of a `documents_<provider>_<dim>` table (see
`VectorStore.create_table` in vector_store.py): identity, text body,
serialised JSON metadata (optional) and the embedding vector. -/
structure StoredRow where
  id : ℕ
  text : String
  metadata : Option String
  embedding : List ℚ
  deriving DecidableEq

/-- One element of the `results` list built by `RAGSystem.search`
(rag_system.py, lines 200-208) and `VectorStore.search_similar`. -/
structure FilteredDoc where
  id : ℕ
  text : String
  metadata : Option String
  distance : ℚ
  deriving DecidableEq

/-- One element of `debug_info['results_raw']` (rag_system.py, lines
187-193). -/
structure RawEntry where
  rank : ℕ
  id : ℕ
  distance : ℚ
  textPreview : String
  deriving DecidableEq

/-- One element of `debug_info['results_filtered']`. -/
structure FilteredEntry where
  id : ℕ
  distance : ℚ
  deriving DecidableEq

/-- One element of `debug_info['discarded_reasons']`. -/
structure DiscardEntry where
  id : ℕ
  reason : String
  distance : ℚ
  deriving DecidableEq

/-- The `debug_info` record built by `RAGSystem.search` (rag_system.py,
lines 174-220) and `VectorStore.search_similar` (vector_store.py, lines
205-240). -/
structure DebugInfo where
  tableName : String
  embeddingModel : Option String
  embeddingDim : ℕ
  topKRaw : ℕ
  threshold : Option ℚ
  resultsRaw : List RawEntry
  resultsFiltered : List FilteredEntry
  filteredCount : ℕ
  discardedReasons : List DiscardEntry
  deriving DecidableEq

/-- Return value of `RAGSystem.search` and `VectorStore.search_similar`: the
result list plus optional debug information (None on every failure path). -/
structure SearchOut where
  results : List FilteredDoc
  debug : Option DebugInfo
  deriving DecidableEq

/-- Comparison of candidate rows by their computed distance, the order
imposed by the SQL clause `ORDER BY embedding <=> query`. -/
def distLE (a b : StoredRow × ℚ) : Prop := a.2 ≤ b.2

instance : DecidableRel distLE := fun a b => inferInstanceAs (Decidable (a.2 ≤ b.2))

instance : IsTotal (StoredRow × ℚ) distLE := ⟨fun a b => le_total a.2 b.2⟩

instance : IsTrans (StoredRow × ℚ) distLE := ⟨fun _ _ _ h h₂ => le_trans h h₂⟩

/-- The nearest-neighbour SQL query issued by `RAGSystem.search`
(rag_system.py, lines 157-169) and `VectorStore.search_similar`
(vector_store.py, lines 189-203):
rows are selected together with their distance to the query vector, ordered
by ascending distance and limited to `k` rows.  `dist` stands for the
pgvector `<=>` cosine-distance operator; only the ordering it induces
matters here, so it is kept as a parameter.  A negative LIMIT makes
PostgreSQL raise an error (modelled as `none`), which the Python callers
turn into their failure result via the except handler. -/
def nearestRows (dist : List ℚ → List ℚ → ℚ) (table : List StoredRow)
    (queryVec : List ℚ) (k : ℤ) : Option (List (StoredRow × ℚ)) :=
  if k < 0 then none
  else
    some ((List.insertionSort distLE
      (table.map fun r => (r, dist r.embedding queryVec))).take k.toNat)

/-- The candidate-pass condition of the filtering loop in `RAGSystem.search`
(rag_system.py, line 202): `threshold is None or distance <= threshold`. -/
def passesThreshold (threshold : Option ℚ) (d : ℚ) : Bool :=
  match threshold with
  | none => true
  | some t => d ≤ t

/-- The discard reason string of rag_system.py, line 216. -/
def discardReason (d : ℚ) (threshold : Option ℚ) : String :=
  "距離 " ++ toString d ++ " > 閾値 " ++
    (match threshold with
      | none => "None"
      | some t => toString t)

/-- Joint output of the filtering loop of `RAGSystem.search` (rag_system.py,
lines 200-218): the filtered documents, their `results_filtered` debug
entries, and the `discarded_reasons` entries. -/
structure FilterOut where
  docs : List FilteredDoc
  entries : List FilteredEntry
  discards : List DiscardEntry
  deriving DecidableEq

/-- The filtering loop of `RAGSystem.search`: splits the raw candidates, in
order, into passed and discarded ones. -/
def filterStage (threshold : Option ℚ) : List (StoredRow × ℚ) → FilterOut
  | [] => ⟨[], [], []⟩
  | (r, d) :: rest =>
      let prev := filterStage threshold rest
      if passesThreshold threshold d then
        ⟨⟨r.id, r.text, r.metadata, d⟩ :: prev.docs,
         ⟨r.id, d⟩ :: prev.entries, prev.discards⟩
      else
        ⟨prev.docs, prev.entries,
         ⟨r.id, discardReason d threshold, d⟩ :: prev.discards⟩

/-- The Python slice `text[:n]`: the first `n` characters of a string. -/
def takeChars (s : String) (n : ℕ) : String :=
  (s.toList.take n).asString

/-- The `debug_info['results_raw']` construction (rag_system.py, lines
187-193): candidates are enumerated starting at rank 1, each recorded with
its id, distance and a 100-character text preview (`text[:100]`). -/
def buildRawEntries (rank : ℕ) : List (StoredRow × ℚ) → List RawEntry
  | [] => []
  | (r, d) :: rest =>
      ⟨rank, r.id, d, takeChars r.text 100⟩ :: buildRawEntries (rank + 1) rest

/-- The fixed collaborators of one `RAGSystem` instance together with the
state of its backing table.  `connectOk` models the outcome of
`DatabaseConnection.connect`; `docEmbedding` and `queryEmbedding` model the
configured embedder's return value per input text; `dist` is the store's
distance operator; `gen` models `self.llm.generate` per prompt. -/
structure RagEnv where
  tableName : String
  embModelName : String
  connectOk : Bool
  docEmbedding : String → Option (List ℚ)
  queryEmbedding : String → Option (List ℚ)
  table : List StoredRow
  dist : List ℚ → List ℚ → ℚ
  gen : String → Option String

/-- Model of `RAGSystem.search` (rag_system.py, lines 120-236).  Failure
paths (connection failure, falsy query embedding, SQL error) return empty
results with `debug = none`; otherwise the raw candidates of the
nearest-neighbour query are recorded, the threshold filter (threshold
hard-coded to None at line 198) is applied, and the filtered list is
returned with full diagnostics. -/
def ragSearch (env : RagEnv) (queryText : String) (topK : ℤ) : SearchOut :=
  if !env.connectOk then ⟨[], none⟩
  else
    match env.queryEmbedding queryText with
    | none => ⟨[], none⟩
    | some qv =>
        if qv.isEmpty then ⟨[], none⟩
        else
          match nearestRows env.dist env.table qv topK with
          | none => ⟨[], none⟩
          | some rows =>
              ⟨(filterStage none rows).docs,
               some ⟨env.tableName, some env.embModelName, qv.length,
                 rows.length, none, buildRawEntries 1 rows,
                 (filterStage none rows).entries,
                 (filterStage none rows).docs.length,
                 (filterStage none rows).discards⟩⟩

/-- Model of `VectorStore.search_similar` (vector_store.py, lines 175-251):
same nearest-neighbour query, but with no filtering stage — every raw
candidate is returned and `discarded_reasons` stays empty. -/
def searchSimilar (connectOk : Bool) (tblName : String) (emName : Option String)
    (dist : List ℚ → List ℚ → ℚ) (table : List StoredRow)
    (queryVec : List ℚ) (k : ℤ) : SearchOut :=
  if !connectOk then ⟨[], none⟩
  else
    match nearestRows dist table queryVec k with
    | none => ⟨[], none⟩
    | some rows =>
        ⟨rows.map fun rd => (⟨rd.1.id, rd.1.text, rd.1.metadata, rd.2⟩ : FilteredDoc),
         some ⟨tblName, emName, queryVec.length, rows.length, none,
           buildRawEntries 1 rows,
           rows.map fun rd => (⟨rd.1.id, rd.2⟩ : FilteredEntry),
           rows.length, []⟩⟩

/-- The fixed no-documents answer of `RAGSystem.answer_question`
(rag_system.py, line 265). -/
def noDocsMsg : String := "関連するドキュメントが見つかりませんでした。"

/-- The fixed generation-failure answer of `RAGSystem.answer_question`
(rag_system.py, line 309). -/
def genFailMsg : String := "回答の生成に失敗しました。"

/-- The context block of `RAGSystem.answer_question` (rag_system.py, lines
274-277): retrieved documents labelled by rank, joined by blank lines. -/
def buildContext (docs : List FilteredDoc) : String :=
  String.intercalate "\n\n"
    (docs.enum.map fun p => "[ドキュメント" ++ toString (p.1 + 1) ++ "]\n" ++ p.2.text)

/-- The prompt template of `RAGSystem.answer_question` (rag_system.py,
lines 282-289). -/
def buildPrompt (docs : List FilteredDoc) (question : String) : String :=
  "以下のコンテキストに基づいて質問に回答してください。\n\n    コンテキスト:\n    "
    ++ buildContext docs ++ "\n\n    質問: " ++ question ++ "\n\n    回答:"

/-- Result of `RAGSystem.answer_question`, instrumented with the calls the
orchestrator makes on its collaborators: `genCalls` logs every prompt passed
to `self.llm.generate`, and `searchCalls` logs every `(query, top_k)` pair
passed to `self.search`. -/
structure AnswerOut where
  answer : String
  debug : Option DebugInfo
  genCalls : List String
  searchCalls : List (String × ℤ)
  deriving DecidableEq

/-- Model of `RAGSystem.answer_question` (rag_system.py, lines 239-311):
retrieval with the literal `top_k=3`, short-circuit on an empty filtered
result list (`if not search_results:`), otherwise prompt assembly and one
generation call whose result is checked for Python truthiness
(`if answer:`), so both None and the empty string fall through to the fixed
failure message. -/
def ragAnswerQuestion (env : RagEnv) (question : String) : AnswerOut :=
  if (ragSearch env question 3).results.isEmpty then
    ⟨noDocsMsg, (ragSearch env question 3).debug, [], [(question, 3)]⟩
  else
    match env.gen (buildPrompt (ragSearch env question 3).results question) with
    | some ans =>
        if ans.isEmpty then
          ⟨genFailMsg, (ragSearch env question 3).debug,
           [buildPrompt (ragSearch env question 3).results question], [(question, 3)]⟩
        else
          ⟨ans, (ragSearch env question 3).debug,
           [buildPrompt (ragSearch env question 3).results question], [(question, 3)]⟩
    | none =>
        ⟨genFailMsg, (ragSearch env question 3).debug,
         [buildPrompt (ragSearch env question 3).results question], [(question, 3)]⟩

/-- The `INSERT ... RETURNING id` statement against a
`documents_<provider>_<dim>` table, as issued by `VectorStore.insert_document`
(vector_store.py, lines 151-166) and `RAGSystem.add_document` (rag_system.py,
lines 92-112).  The `embedding` column has SQL type `vector(dim)` (see
`VectorStore.create_table`), so PostgreSQL rejects a vector literal of any
other length: the statement raises, the transaction aborts with no row
persisted, and the Python layer turns this into a None result.  On success a
fresh identity is assigned and the row is appended. -/
def dbInsert (dim : ℕ) (table : List StoredRow) (text : String)
    (vec : List ℚ) (metadata : Option String) : Option ℕ × List StoredRow :=
  if vec.length = dim then
    (some (table.length + 1), table ++ [⟨table.length + 1, text, metadata, vec⟩])
  else (none, table)

/-- Model of `VectorStore.insert_document` (vector_store.py, lines 137-172):
connection failure yields None with the table unchanged; otherwise the
insert statement above runs. -/
def insertDocument (connectOk : Bool) (dim : ℕ) (table : List StoredRow)
    (text : String) (vec : List ℚ) (metadata : Option String) :
    Option ℕ × List StoredRow :=
  if !connectOk then (none, table) else dbInsert dim table text vec metadata

/-- Model of `RAGSystem.add_document` (rag_system.py, lines 60-118): embeds
the text (`embResult` is the configured embedder's return value for it),
fails on a falsy embedding (`if not embedding:` — None or the empty list),
otherwise runs the same insert statement against the system's table. -/
def ragAddDocument (connectOk : Bool) (embResult : Option (List ℚ)) (dim : ℕ)
    (table : List StoredRow) (text : String) (metadata : Option String) :
    Option ℕ × List StoredRow :=
  if !connectOk then (none, table)
  else
    match embResult with
    | none => (none, table)
    | some emb =>
        if emb.isEmpty then (none, table)
        else dbInsert dim table text emb metadata

/-! ### Helper lemmas about the filtering loop and the nearest query -/

lemma filterStage_docs_add_discards_length (t : Option ℚ) (rows : List (StoredRow × ℚ)) :
    (filterStage t rows).docs.length + (filterStage t rows).discards.length
      = rows.length := by
  induction rows with
  | nil => rfl
  | cons rd rest ih =>
      obtain ⟨r, d⟩ := rd
      by_cases h : passesThreshold t d <;>
        simp only [filterStage, h, if_true, if_false, List.length_cons,
          Bool.false_eq_true, ite_false, ite_true] <;> omega

lemma filterStage_entries_length (t : Option ℚ) (rows : List (StoredRow × ℚ)) :
    (filterStage t rows).entries.length = (filterStage t rows).docs.length := by
  induction rows with
  | nil => rfl
  | cons rd rest ih =>
      obtain ⟨r, d⟩ := rd
      by_cases h : passesThreshold t d <;>
        simp only [filterStage, h, if_true, if_false, List.length_cons,
          Bool.false_eq_true, ite_false, ite_true] <;> omega

lemma filterStage_entries_sublist (t : Option ℚ) (rows : List (StoredRow × ℚ)) :
    List.Sublist ((filterStage t rows).entries.map fun e => (e.id, e.distance))
      (rows.map fun rd => (rd.1.id, rd.2)) := by
  induction rows with
  | nil => simp [filterStage]
  | cons rd rest ih =>
      obtain ⟨r, d⟩ := rd
      by_cases h : passesThreshold t d
      · simpa [filterStage, h] using ih.cons₂ (r.id, d)
      · simpa [filterStage, h] using ih.cons (r.id, d)

lemma filterStage_docs_dist_sublist (t : Option ℚ) (rows : List (StoredRow × ℚ)) :
    List.Sublist ((filterStage t rows).docs.map FilteredDoc.distance)
      (rows.map Prod.snd) := by
  induction rows with
  | nil => simp [filterStage]
  | cons rd rest ih =>
      obtain ⟨r, d⟩ := rd
      by_cases h : passesThreshold t d
      · simpa [filterStage, h] using ih.cons₂ d
      · simpa [filterStage, h] using ih.cons d

lemma buildRawEntries_length (i : ℕ) (rows : List (StoredRow × ℚ)) :
    (buildRawEntries i rows).length = rows.length := by
  induction rows generalizing i with
  | nil => rfl
  | cons rd rest ih =>
      obtain ⟨r, d⟩ := rd
      simp [buildRawEntries, ih]

lemma buildRawEntries_proj (i : ℕ) (rows : List (StoredRow × ℚ)) :
    ((buildRawEntries i rows).map fun e => (e.id, e.distance))
      = rows.map fun rd => (rd.1.id, rd.2) := by
  induction rows generalizing i with
  | nil => rfl
  | cons rd rest ih =>
      obtain ⟨r, d⟩ := rd
      simp [buildRawEntries, ih]

lemma buildRawEntries_dist (i : ℕ) (rows : List (StoredRow × ℚ)) :
    (buildRawEntries i rows).map RawEntry.distance = rows.map Prod.snd := by
  induction rows generalizing i with
  | nil => rfl
  | cons rd rest ih =>
      obtain ⟨r, d⟩ := rd
      simp [buildRawEntries, ih]

lemma nearestRows_spec {dist : List ℚ → List ℚ → ℚ} {table : List StoredRow}
    {qv : List ℚ} {k : ℤ} {rows : List (StoredRow × ℚ)}
    (h : nearestRows dist table qv k = some rows) :
    rows.length ≤ k.toNat ∧ List.Sorted (· ≤ ·) (rows.map Prod.snd) := by
  unfold nearestRows at h
  split at h
  · exact absurd h (by simp)
  · obtain rfl : _ = rows := Option.some.inj h
    constructor
    · simp [min_le_left]
    · have hs : List.Sorted distLE
          (List.insertionSort distLE (table.map fun r => (r, dist r.embedding qv))) :=
        List.sorted_insertionSort distLE _
      have ht : List.Sorted distLE
          ((List.insertionSort distLE (table.map fun r => (r, dist r.embedding qv))).take
            k.toNat) :=
        hs.sublist (List.take_sublist _ _)
      exact (List.pairwise_map).mpr ht

lemma ragSearch_some_spec {env : RagEnv} {q : String} {k : ℤ}
    {res : List FilteredDoc} {d : DebugInfo}
    (h : ragSearch env q k = ⟨res, some d⟩) :
    ∃ qv rows, env.queryEmbedding q = some qv ∧
      nearestRows env.dist env.table qv k = some rows ∧
      res = (filterStage none rows).docs ∧
      d.resultsRaw = buildRawEntries 1 rows ∧
      d.resultsFiltered = (filterStage none rows).entries ∧
      d.discardedReasons = (filterStage none rows).discards ∧
      d.topKRaw = rows.length ∧
      d.filteredCount = (filterStage none rows).docs.length := by
  unfold ragSearch at h
  split at h
  · simp at h
  · split at h
    · simp at h
    · rename_i qv hqv
      split at h
      · simp at h
      · split at h
        · simp at h
        · rename_i rows hrows
          injection h with h1 h2
          injection h2 with h3
          exact ⟨qv, rows, hqv, hrows, h1.symm, by rw [← h3], by rw [← h3],
            by rw [← h3], by rw [← h3], by rw [← h3]⟩

/-! ### Concrete environments used by witnesses and counterexamples -/

/-- A working environment with an empty table. -/
def envEmpty : RagEnv :=
  ⟨"documents_google_768", "google", true, fun _ => none, fun _ => some [1],
   [], fun _ _ => 0, fun _ => some "x"⟩

/-- A working environment with one stored row whose generation backend
always fails (returns None). -/
def envGenNone : RagEnv :=
  ⟨"documents_google_768", "google", true, fun _ => none, fun _ => some [1],
   [⟨1, "a", none, [0]⟩], fun _ _ => 0, fun _ => none⟩

/-- A working environment with one stored row whose generation backend
returns the empty string. -/
def envGenEmpty : RagEnv :=
  ⟨"documents_google_768", "google", true, fun _ => none, fun _ => some [1],
   [⟨1, "a", none, [0]⟩], fun _ _ => 0, fun _ => some ""⟩

/-- A working environment with five stored rows at pairwise distinct
distances (the distance operator reads the stored vector's head). -/
def envFive : RagEnv :=
  ⟨"documents_google_768", "google", true, fun _ => none, fun _ => some [1],
   [⟨1, "a", none, [0]⟩, ⟨2, "b", none, [1]⟩, ⟨3, "c", none, [2]⟩,
    ⟨4, "d", none, [3]⟩, ⟨5, "e", none, [4]⟩],
   fun e _ => e.headD 0, fun _ => some "ans"⟩

/-- The results list `ragSearch envGenNone "q" 3` produces. -/
def resOne : List FilteredDoc := [⟨1, "a", none, 0⟩]

/-- The debug record `ragSearch envGenNone "q" 3` produces. -/
def dbgOne : DebugInfo :=
  ⟨"documents_google_768", some "google", 1, 1, none,
   [⟨1, 1, 0, "a"⟩], [⟨1, 0⟩], 1, []⟩

/-! ### Claim theorems -/

/-- C1: the claim states that `GeminiEmbedding.get_embedding` returns the
backend's vector whenever it has 768 entries and fails only otherwise.  The
code contradicts this (and its own docstring): the mis-indented
`return None` after the dimensionality check runs unconditionally, so the
call returns None even for a successful 768-dimensional backend response.
This theorem evaluates the embedded code at such a failing input. -/
theorem C1_gemini_get_embedding_always_none :
    (List.replicate 768 (0 : ℚ)).length = 768 ∧
    geminiGetEmbedding (.ok (List.replicate 768 (0 : ℚ))) = none :=
  ⟨by rw [List.length_replicate], rfl⟩

/-- C2: for every `RAGSystem.search` call that reaches the filtering stage
(i.e. returns a debug record), the raw candidate count equals the filtered
count plus the discarded count — both as recorded counts and as actual list
lengths — the filtered list is a subsequence of the raw list (compared on
their shared (id, distance) projections), the raw list is ascending in
distance, and the filtered results preserve that ascending order. -/
theorem C2_search_filter_invariant :
    ∀ (env : RagEnv) (q : String) (k : ℤ) (res : List FilteredDoc) (d : DebugInfo),
      ragSearch env q k = ⟨res, some d⟩ →
      d.resultsRaw.length = d.resultsFiltered.length + d.discardedReasons.length ∧
      d.topKRaw = d.filteredCount + d.discardedReasons.length ∧
      List.Sublist (d.resultsFiltered.map fun e => (e.id, e.distance))
        (d.resultsRaw.map fun e => (e.id, e.distance)) ∧
      List.Sorted (· ≤ ·) (d.resultsRaw.map RawEntry.distance) ∧
      List.Sorted (· ≤ ·) (res.map FilteredDoc.distance) := by
  intro env q k res d h
  obtain ⟨qv, rows, hqv, hnr, hres, hraw, hfil, hdis, htop, hcnt⟩ :=
    ragSearch_some_spec h
  have hlen := filterStage_docs_add_discards_length none rows
  have helen := filterStage_entries_length none rows
  refine ⟨?_, ?_, ?_, ?_, ?_⟩
  · rw [hraw, hfil, hdis, buildRawEntries_length]
    omega
  · rw [htop, hcnt, hdis]
    omega
  · rw [hraw, hfil, buildRawEntries_proj]
    exact filterStage_entries_sublist none rows
  · rw [hraw, buildRawEntries_dist]
    exact (nearestRows_spec hnr).2
  · rw [hres]
    exact ((nearestRows_spec hnr).2).sublist (filterStage_docs_dist_sublist none rows)

/-- Witness for C2 at a concrete environment with one stored document. -/
theorem C2_search_filter_invariant_witness :
    ragSearch envGenNone "q" 3 = ⟨resOne, some dbgOne⟩ ∧
    (dbgOne.resultsRaw.length
        = dbgOne.resultsFiltered.length + dbgOne.discardedReasons.length ∧
      dbgOne.topKRaw = dbgOne.filteredCount + dbgOne.discardedReasons.length ∧
      List.Sublist (dbgOne.resultsFiltered.map fun e => (e.id, e.distance))
        (dbgOne.resultsRaw.map fun e => (e.id, e.distance)) ∧
      List.Sorted (· ≤ ·) (dbgOne.resultsRaw.map RawEntry.distance) ∧
      List.Sorted (· ≤ ·) (resOne.map FilteredDoc.distance)) :=
  ⟨by decide, C2_search_filter_invariant envGenNone "q" 3 resOne dbgOne (by decide)⟩

/-- C3: whenever retrieval yields an empty filtered result list,
`RAGSystem.answer_question` returns the fixed no-documents answer together
with the retrieval diagnostics, and the generation backend is never invoked
(the generation call log is empty). -/
theorem C3_empty_retrieval_short_circuits :
    ∀ (env : RagEnv) (q : String),
      (ragSearch env q 3).results = [] →
      ragAnswerQuestion env q
        = ⟨noDocsMsg, (ragSearch env q 3).debug, [], [(q, 3)]⟩ := by
  intro env q h
  unfold ragAnswerQuestion
  simp [h]

/-- Witness for C3 at a concrete environment with an empty table. -/
theorem C3_empty_retrieval_short_circuits_witness :
    (ragSearch envEmpty "q" 3).results = [] ∧
    ragAnswerQuestion envEmpty "q"
      = ⟨noDocsMsg, (ragSearch envEmpty "q" 3).debug, [], [("q", 3)]⟩ :=
  ⟨by decide, C3_empty_retrieval_short_circuits envEmpty "q" (by decide)⟩

/-- C4: when retrieval yields a non-empty filtered result list and the
generation backend returns None, `RAGSystem.answer_question` returns the
fixed generation-failure message while the returned debug record is exactly
the one produced by the retrieval step. -/
theorem C4_generation_failure_preserves_diagnostics :
    ∀ (env : RagEnv) (q : String),
      (ragSearch env q 3).results ≠ [] →
      env.gen (buildPrompt (ragSearch env q 3).results q) = none →
      ragAnswerQuestion env q
        = ⟨genFailMsg, (ragSearch env q 3).debug,
           [buildPrompt (ragSearch env q 3).results q], [(q, 3)]⟩ := by
  intro env q h hg
  unfold ragAnswerQuestion
  simp [h, hg]

/-- Witness for C4 at a concrete environment whose generation backend
always returns None. -/
theorem C4_generation_failure_preserves_diagnostics_witness :
    (ragSearch envGenNone "q" 3).results ≠ [] ∧
    envGenNone.gen (buildPrompt (ragSearch envGenNone "q" 3).results "q") = none ∧
    ragAnswerQuestion envGenNone "q"
      = ⟨genFailMsg, (ragSearch envGenNone "q" 3).debug,
         [buildPrompt (ragSearch envGenNone "q" 3).results "q"], [("q", 3)]⟩ :=
  ⟨by decide, rfl,
   C4_generation_failure_preserves_diagnostics envGenNone "q" (by decide) rfl⟩

/-- C5 counterexample: `GeminiEmbedding.get_query_embedding` performs no
dimensionality check at all — a successful backend response whose vector has
512 entries (≠ 768) is returned unchanged to the caller, contradicting the
claim that every embed_query call returns None on a dimensionality
mismatch. -/
theorem C5_counterexample_gemini_query_unchecked :
    (List.replicate 512 (0 : ℚ)).length ≠ 768 ∧
    geminiGetQueryEmbedding (.ok (List.replicate 512 (0 : ℚ)))
      = some (List.replicate 512 (0 : ℚ)) :=
  ⟨by rw [List.length_replicate]; decide, rfl⟩

/-- C5 amended: Ollama's embed_document and embed_query reject every
response vector whose length differs from 1024, and Gemini's embed_document
never returns a vector (it returns None on every response); Gemini's
embed_query, however, performs no dimensionality check. -/
theorem C5_amended_dimensionality_checks :
    ∀ (v w : List ℚ), v.length ≠ 1024 →
      ollamaGetEmbedding (.ok (some v)) = none ∧
      ollamaGetQueryEmbedding (.ok (some v)) = none ∧
      geminiGetEmbedding (.ok w) = none := by
  intro v w h
  refine ⟨?_, ?_, rfl⟩ <;>
    · by_cases hv : v.isEmpty <;>
        simp [ollamaGetQueryEmbedding, ollamaGetEmbedding, hv, h]

/-- Witness for C5 at a concrete 512-dimensional response vector. -/
theorem C5_amended_dimensionality_checks_witness :
    (List.replicate 512 (0 : ℚ)).length ≠ 1024 ∧
    (ollamaGetEmbedding (.ok (some (List.replicate 512 (0 : ℚ)))) = none ∧
      ollamaGetQueryEmbedding (.ok (some (List.replicate 512 (0 : ℚ)))) = none ∧
      geminiGetEmbedding (.ok (List.replicate 768 (0 : ℚ))) = none) :=
  ⟨by rw [List.length_replicate]; decide,
   C5_amended_dimensionality_checks (List.replicate 512 0) (List.replicate 768 0)
     (by rw [List.length_replicate]; decide)⟩

/-- C6 counterexample: with a reachable Ollama backend serving the model
name llama3.1:8b-instruct-q4_K_M and the configured identifier llama3.1 —
a strict substring of the served name — `LocalLLM.test_connection` returns
False, because its check `self.model in model_names` is exact list
membership, not substring matching; `CloudLLM.test_connection` on the same
data returns True. -/
theorem C6_counterexample_local_exact_match_only :
    pyInStr "llama3.1" "llama3.1:8b-instruct-q4_K_M" = true ∧
    localTestConnection
      (some (.attrModels [.nameAttr "llama3.1:8b-instruct-q4_K_M"])) "llama3.1"
      = false ∧
    cloudTestConnection (some ["llama3.1:8b-instruct-q4_K_M"]) "llama3.1" = true := by
  decide

/-- C6 amended: `CloudLLM.test_connection` returns True whenever the backend
is reachable and the configured identifier occurs as a substring of some
served model name; `LocalLLM.test_connection` returns True whenever the
backend is reachable and the configured identifier exactly equals one of the
extracted served names (substring matches do not suffice there). -/
theorem C6_amended_test_connection :
    ∀ (resp : OllamaListResp) (names : List String) (m n : String),
      (m ∈ ollamaModelNames resp → localTestConnection (some resp) m = true) ∧
      (n ∈ names → pyInStr m n = true → cloudTestConnection (some names) m = true) := by
  intro resp names m n
  constructor
  · intro hm
    show List.elem m (ollamaModelNames resp) = true
    exact List.elem_eq_true_of_mem hm
  · intro hn hsub
    simp only [cloudTestConnection, List.any_eq_true]
    exact ⟨n, hn, hsub⟩

/-- Witness for C6: a served-name list where the local check succeeds by
exact equality and a served-name list where the cloud check succeeds by
substring matching. -/
theorem C6_amended_test_connection_witness :
    "llama3.1:8b-instruct-q4_K_M"
        ∈ ollamaModelNames (.attrModels [.nameAttr "llama3.1:8b-instruct-q4_K_M"]) ∧
    localTestConnection (some (.attrModels [.nameAttr "llama3.1:8b-instruct-q4_K_M"]))
        "llama3.1:8b-instruct-q4_K_M" = true ∧
    "models/gemini-2.0-flash-001" ∈ ["models/gemini-2.0-flash-001"] ∧
    pyInStr "gemini-2.0-flash" "models/gemini-2.0-flash-001" = true ∧
    cloudTestConnection (some ["models/gemini-2.0-flash-001"]) "gemini-2.0-flash" = true :=
  ⟨by decide,
   (C6_amended_test_connection (.attrModels [.nameAttr "llama3.1:8b-instruct-q4_K_M"])
      [] "llama3.1:8b-instruct-q4_K_M" "").1 (by decide),
   by decide, by decide,
   (C6_amended_test_connection .otherShape ["models/gemini-2.0-flash-001"]
      "gemini-2.0-flash" "models/gemini-2.0-flash-001").2 (by decide) (by decide)⟩

/-- C7: for every distance operator, table, query vector and positive `k`,
the nearest-neighbour query succeeds and returns at most `k` rows whose
distances are non-decreasing; `VectorStore.search_similar` built on it
returns at most `k` results in non-decreasing distance order.  `k ≤ 0` is
treated as invalid input, reflected by the `0 < k` precondition. -/
theorem C7_nearest_at_most_k_sorted :
    ∀ (dist : List ℚ → List ℚ → ℚ) (table : List StoredRow) (qv : List ℚ)
      (k : ℤ) (ok : Bool) (tbl : String) (em : Option String),
      0 < k →
      (nearestRows dist table qv k).isSome = true ∧
      ((nearestRows dist table qv k).getD []).length ≤ k.toNat ∧
      List.Sorted (· ≤ ·) (((nearestRows dist table qv k).getD []).map Prod.snd) ∧
      (searchSimilar ok tbl em dist table qv k).results.length ≤ k.toNat ∧
      List.Sorted (· ≤ ·)
        ((searchSimilar ok tbl em dist table qv k).results.map FilteredDoc.distance) := by
  intro dist table qv k ok tbl em hk
  have hk0 : ¬k < 0 := by omega
  have hsome : nearestRows dist table qv k
      = some ((List.insertionSort distLE
          (table.map fun r => (r, dist r.embedding qv))).take k.toNat) := by
    simp [nearestRows, hk0]
  obtain ⟨hlen, hsort⟩ := nearestRows_spec hsome
  refine ⟨by simp [hsome], by simp [hsome], by simpa [hsome] using hsort,
    ?_, ?_⟩
  · cases ok
    · simp [searchSimilar]
    · simp only [searchSimilar, hsome, Bool.not_true, Bool.false_eq_true, if_false]
      simp
  · cases ok
    · simp [searchSimilar, List.Sorted]
    · simp only [searchSimilar, hsome, Bool.not_true, Bool.false_eq_true, if_false]
      simpa [List.map_map, Function.comp] using hsort

/-- Witness for C7 at a concrete two-row table with `k = 2`. -/
theorem C7_nearest_at_most_k_sorted_witness :
    (0 : ℤ) < 2 ∧
    ((nearestRows (fun e _ => e.headD 0) [⟨1, "a", none, [5]⟩, ⟨2, "b", none, [3]⟩]
        [1] 2).isSome = true ∧
      ((nearestRows (fun e _ => e.headD 0) [⟨1, "a", none, [5]⟩, ⟨2, "b", none, [3]⟩]
          [1] 2).getD []).length ≤ (2 : ℤ).toNat ∧
      List.Sorted (· ≤ ·)
        (((nearestRows (fun e _ => e.headD 0) [⟨1, "a", none, [5]⟩, ⟨2, "b", none, [3]⟩]
            [1] 2).getD []).map Prod.snd) ∧
      (searchSimilar true "t" none (fun e _ => e.headD 0)
          [⟨1, "a", none, [5]⟩, ⟨2, "b", none, [3]⟩] [1] 2).results.length
        ≤ (2 : ℤ).toNat ∧
      List.Sorted (· ≤ ·)
        ((searchSimilar true "t" none (fun e _ => e.headD 0)
            [⟨1, "a", none, [5]⟩, ⟨2, "b", none, [3]⟩] [1] 2).results.map
          FilteredDoc.distance)) :=
  ⟨by decide,
   C7_nearest_at_most_k_sorted (fun e _ => e.headD 0)
     [⟨1, "a", none, [5]⟩, ⟨2, "b", none, [3]⟩] [1] 2 true "t" none (by decide)⟩

/-- C8: a vector whose length differs from the family's configured
dimensionality is rejected: `VectorStore.insert_document` returns None with
the table unchanged (the typed vector(dim) column makes the INSERT fail with
no row persisted), and `RAGSystem.add_document` reaching the insert with
such a vector likewise returns None with no row persisted. -/
theorem C8_wrong_dimension_rejected :
    ∀ (ok : Bool) (dim : ℕ) (table : List StoredRow) (text : String)
      (vec : List ℚ) (meta : Option String),
      vec.length ≠ dim →
      insertDocument ok dim table text vec meta = (none, table) ∧
      ragAddDocument ok (some vec) dim table text meta = (none, table) := by
  intro ok dim table text vec meta h
  constructor
  · cases ok <;> simp [insertDocument, dbInsert, h]
  · cases ok
    · simp [ragAddDocument]
    · by_cases hv : vec.isEmpty <;> simp [ragAddDocument, dbInsert, hv, h]

/-- Witness for C8: a 512-dimensional vector against the google-768 family. -/
theorem C8_wrong_dimension_rejected_witness :
    (List.replicate 512 (0 : ℚ)).length ≠ 768 ∧
    (insertDocument true 768 [] "t" (List.replicate 512 (0 : ℚ)) none = (none, []) ∧
      ragAddDocument true (some (List.replicate 512 (0 : ℚ))) 768 [] "t" none
        = (none, [])) :=
  ⟨by rw [List.length_replicate]; decide,
   C8_wrong_dimension_rejected true 768 [] "t" (List.replicate 512 0) none
     (by rw [List.length_replicate]; decide)⟩

/-- C9 counterexample: `RAGSystem.answer_question` takes only the question —
its embedded form has no top_k parameter — and with five stored documents
its retrieval call is recorded as `(question, 3)` and only three raw
candidates are fetched; nothing a caller passes to the answer operation can
change that, contradicting the claim that top_k is configurable by the
caller of the answer operation. -/
theorem C9_counterexample_topk_not_configurable :
    envFive.table.length = 5 ∧
    (ragAnswerQuestion envFive "q").searchCalls = [("q", 3)] ∧
    (ragAnswerQuestion envFive "q").debug.map DebugInfo.topKRaw = some 3 := by
  decide

/-- C9 amended: `RAGSystem.answer_question` always invokes the retrieval
step with the hard-coded `top_k = 3`; the value is not configurable by the
caller of the answer operation (only the standalone search operation exposes
a configurable top_k, defaulting to 3). -/
theorem C9_amended_topk_always_three :
    ∀ (env : RagEnv) (q : String),
      (ragAnswerQuestion env q).searchCalls = [(q, 3)] := by
  intro env q
  unfold ragAnswerQuestion
  by_cases hE : (ragSearch env q 3).results.isEmpty
  · simp [hE]
  · simp only [hE, Bool.false_eq_true, if_false]
    cases hg : env.gen (buildPrompt (ragSearch env q 3).results q) with
    | none => simp
    | some ans => by_cases ha : ans.isEmpty <;> simp [ha]

/-- C10: when retrieval yields a non-empty filtered result list and the
generation backend returns a present but empty answer, the Python truthiness
check `if answer:` treats it exactly like a generation failure:
`RAGSystem.answer_question` returns the fixed failure message with the
retrieval diagnostics attached. -/
theorem C10_empty_generation_treated_as_failure :
    ∀ (env : RagEnv) (q : String),
      (ragSearch env q 3).results ≠ [] →
      env.gen (buildPrompt (ragSearch env q 3).results q) = some "" →
      ragAnswerQuestion env q
        = ⟨genFailMsg, (ragSearch env q 3).debug,
           [buildPrompt (ragSearch env q 3).results q], [(q, 3)]⟩ := by
  intro env q h hg
  unfold ragAnswerQuestion
  simp [h, hg]
  intro h2
  exact absurd h2 (by decide)

/-- Witness for C10 at a concrete environment whose generation backend
returns the empty string. -/
theorem C10_empty_generation_treated_as_failure_witness :
    (ragSearch envGenEmpty "q" 3).results ≠ [] ∧
    envGenEmpty.gen (buildPrompt (ragSearch envGenEmpty "q" 3).results "q") = some "" ∧
    ragAnswerQuestion envGenEmpty "q"
      = ⟨genFailMsg, (ragSearch envGenEmpty "q" 3).debug,
         [buildPrompt (ragSearch envGenEmpty "q" 3).results "q"], [("q", 3)]⟩ :=
  ⟨by decide, rfl,
   C10_empty_generation_treated_as_failure envGenEmpty "q" (by decide) rfl⟩

end RagPortfolio
